import Mathlib

/-!
Verification of converter and endpoint-derivation logic from a catalog of
Zigbee device descriptors (files: a DiY-devices file, a Sercomm file, and
`src/devices/schneider_electric.ts`).

JavaScript numbers are modelled as rationals (`ℚ`), with a separate `nan`
token collapsing the non-finite results of dividing by zero or by an
undefined attribute.  JavaScript objects used as string-keyed maps are
modelled as association lists with overwrite-on-assignment semantics.
-/

namespace ZhcSpec

/-- A JavaScript value as it appears in converter results: a (finite) number,
the non-finite outcome of a bad arithmetic operation, a string, or
`undefined`. -/
inductive JsVal where
  | num (q : ℚ)
  | nan
  | str (s : String)
  | undefinedVal
  deriving DecidableEq, Repr

/-- JavaScript division on attribute values: defined only when both sides are
finite numbers and the divisor is nonzero; any other combination (an
`undefined` operand, or division by zero) yields a non-finite result. -/
def jsDiv (a b : JsVal) : JsVal :=
  match a, b with
  | .num x, .num y => if y = 0 then .nan else .num (x / y)
  | _, _ => .nan

/-- JavaScript multiplication on attribute values. -/
def jsMul (a b : JsVal) : JsVal :=
  match a, b with
  | .num x, .num y => .num (x * y)
  | _, _ => .nan

/-- A JavaScript object used as a string-keyed dictionary, modelled as an
association list; assignment overwrites an existing key in place and
otherwise appends. -/
abbrev KV := List (String × JsVal)

/-- Object property assignment: `o[k] = v`. -/
def KV.set (o : KV) (k : String) (v : JsVal) : KV :=
  if o.any (fun p => p.1 = k) then o.map (fun p => if p.1 = k then (k, v) else p)
  else o ++ [(k, v)]

/-- Object property read: `o[k]`, `none` for an absent key. -/
def KV.get (o : KV) (k : String) : Option JsVal :=
  (o.find? (fun p => p.1 = k)).map (fun p => p.2)

/-- Decimal digit character, as produced by JavaScript number-to-string
conversion of a nonnegative integer digit. -/
def decDigitChar (d : Nat) : Char :=
  match d with
  | 0 => '0' | 1 => '1' | 2 => '2' | 3 => '3' | 4 => '4'
  | 5 => '5' | 6 => '6' | 7 => '7' | 8 => '8' | 9 => '9'
  | _ => '*'

/-- Numeric value of a decimal digit character (inverse of `decDigitChar`). -/
def decDigitVal (c : Char) : Nat :=
  match c with
  | '0' => 0 | '1' => 1 | '2' => 2 | '3' => 3 | '4' => 4
  | '5' => 5 | '6' => 6 | '7' => 7 | '8' => 8 | '9' => 9
  | _ => 10

/-- Digit extraction for the decimal rendering, fuelled so that it reduces by
computation; the fuel only needs to exceed the digit count. -/
def natToDecAux : Nat → Nat → List Char
  | 0, _ => []
  | fuel + 1, n =>
    if n < 10 then [decDigitChar n]
    else natToDecAux fuel (n / 10) ++ [decDigitChar (n % 10)]

/-- The decimal rendering of a natural number, as JavaScript template-literal
interpolation produces for a nonnegative integer. -/
def natToDec (n : Nat) : List Char :=
  natToDecAux (n + 1) n

/-- Reading the digit list back as a number. -/
def decVal (ds : List Char) : Nat :=
  ds.foldl (fun a c => a * 10 + decDigitVal c) 0

/-- The string `` `l${epId}` ``: the letter `l` followed by the decimal
rendering of the endpoint id. -/
def epName (epId : Nat) : String :=
  "l" ++ ⟨natToDec epId⟩

/-- A line separator character, as matched by the regex `[\r\n]+`. -/
def isLineSep (c : Char) : Bool :=
  c = '\r' || c = '\n'

/-- Fuelled worker for `splitLines`; the fuel only needs to reach the string
length, so the zero-fuel branch is never hit from `splitLines`. -/
def splitLinesAux : Nat → List Char → List (List Char)
  | 0, _ => [[]]
  | fuel + 1, s =>
    match s with
    | [] => [[]]
    | c :: cs =>
      if isLineSep c then [] :: splitLinesAux fuel (cs.dropWhile isLineSep)
      else (splitLinesAux fuel cs).modifyHead (fun l => c :: l)

/-- `String.split(/[\r\n]+/)`: split at every maximal run of `\r`/`\n`
characters; a leading or trailing run produces an empty piece. -/
def splitLines (s : List Char) : List (List Char) :=
  splitLinesAux s.length s

/-- A character matched by the regex class `[0-9A-F]`. -/
def isHexDigitUpper (c : Char) : Bool :=
  ('0' ≤ c && c ≤ '9') || ('A' ≤ c && c ≤ 'F')

/-- Value of a `[0-9A-F]` digit. -/
def hexDigitVal (c : Char) : Nat :=
  if '0' ≤ c ∧ c ≤ '9' then c.toNat - '0'.toNat
  else if 'A' ≤ c ∧ c ≤ 'F' then c.toNat - 'A'.toNat + 10
  else 16

/-- `Number.parseInt(s, 16)` on a string of `[0-9A-F]` digits. -/
def parseHexDigits (ds : List Char) : Nat :=
  ds.foldl (fun a c => a * 16 + hexDigitVal c) 0

/-- The leading `^([0-9A-F]+)` match of a config line: `none` when the regex
does not match (the line does not start with a hex digit), otherwise the
maximal leading run of hex digits. -/
def leadingHexMatch (line : List Char) : Option (List Char) :=
  match line.takeWhile isHexDigitUpper with
  | [] => none
  | ds => some ds

/-- A `Zh.Device` as used by the ptvo converters: its endpoint ids and its
persistent `meta` record (values of type `α`). -/
structure PtvoDevice (α : Type) where
  endpoints : List Nat
  meta : String → Option α

/-- A device argument as received by the ptvo helpers: either a real device
or the dummy device used during offline expose generation. -/
inductive DeviceRef (α : Type) where
  | dummy
  | real (d : PtvoDevice α)

/-- `ptvoGetMetaOption(device, key, defaultValue)`: for a non-dummy device,
`device.meta[key]` unless that is undefined; the default otherwise. -/
def ptvoGetMetaOption {α : Type} : DeviceRef α → String → α → α
  | .real d, key, defaultValue =>
    match d.meta key with
    | none => defaultValue
    | some v => v
  | .dummy, _, defaultValue => defaultValue

/-- `ptvoSetMetaOption(device, key, value)`: stores `value` under `key` in
`device.meta`.  (The source guards `device != null && key != null`; the model
works with a device and key that are always present.) -/
def ptvoSetMetaOption {α : Type} (d : PtvoDevice α) (key : String) (value : α) :
    PtvoDevice α :=
  { d with meta := fun k => if k = key then some value else d.meta k }

/-- The JavaScript array `endpointList` of the `ptvo.switch` `endpoint`
function, which the source only ever populates through *named* properties
(`l<n>` and `action`).  Assigning a named, non-index property of an array
leaves its `length` unchanged, so `length` stays at its initial value. -/
structure JsArrKV where
  props : String → Option Nat
  length : Nat

/-- The empty array `[]`. -/
def JsArrKV.empty : JsArrKV :=
  { props := fun _ => none, length := 0 }

/-- Named-property assignment `a[k] = v` (with `k` not an array index). -/
def JsArrKV.setProp (a : JsArrKV) (k : String) (v : Nat) : JsArrKV :=
  { props := fun k' => if k' = k then some v else a.props k', length := a.length }

/-- The `endpoint` function of the `ptvo.switch` definition: one `l<ID> -> ID`
entry per device endpoint; when the stored `device_config` is empty and
nothing was added, a fallback `l1..l8`; otherwise one `l<epId> -> epId`
entry per config line with a leading hex id; finally `action -> 1`. -/
def ptvoSwitchEndpoint (device : DeviceRef String) : JsArrKV :=
  let endpointList := JsArrKV.empty
  let deviceConfig := ptvoGetMetaOption device "device_config" ""
  let endpointList :=
    match device with
    | .real d =>
      d.endpoints.foldl (fun (acc : JsArrKV) epId => acc.setProp (epName epId) epId) endpointList
    | .dummy => endpointList
  let endpointList :=
    if deviceConfig = "" then
      if endpointList.length = 0 then
        ((List.range 8).map (· + 1)).foldl
          (fun (acc : JsArrKV) epId => acc.setProp (epName epId) epId) endpointList
      else endpointList
    else
      (splitLines deviceConfig.data).foldl
        (fun (acc : JsArrKV) epConfig =>
          match leadingHexMatch epConfig with
          | none => acc
          | some ds => acc.setProp (epName (parseHexDigits ds)) (parseHexDigits ds))
        endpointList
  endpointList.setProp "action" 1

/-- The ids contributed by the config lines: for each line whose leading
characters match `[0-9A-F]+`, the hexadecimal parse of that match. -/
def configEpIds (cfg : String) : List Nat :=
  (splitLines cfg.data).filterMap (fun l => (leadingHexMatch l).map parseHexDigits)

/-- Concrete ptvo device for the C1 witness: endpoints 3 and 7, with a stored
config whose first line starts with hex `2F` and whose second line does not
start with a hex digit. -/
def c1Device : PtvoDevice String :=
  { endpoints := [3, 7],
    meta := fun k => if k = "device_config" then some "2F,x\ngz bad" else none }

/-- Modelled from the spec: the library helpers `calibrateAndPrecisionRoundOptions`
and `postfixWithEndpointName` (from `lib/utils`) and the JavaScript `10 **`
operator are outside these files; the spec treats the expose/metadata framework
as an external collaborator, so they are kept abstract: `calibrate` is the
calibration/precision rounding applied to a value of a given type under the
caller's options, `epSuffix` renames a property for a multi-endpoint message,
and `pow10` is exponentiation base 10. -/
structure ConvertEnv where
  calibrate : String → ℚ → ℚ
  epSuffix : String → Nat → String
  pow10 : ℚ → ℚ

/-- The `switchTypesList` lookup table. -/
def switchTypesList : List (String × Nat) :=
  [("switch", 0x00), ("multi-click", 0x02)]

/-- Modelled from the spec: `getFromLookup` from `lib/utils` is outside these
files; per the spec, conversions "throw on malformed input", so it is modelled
as an exact table lookup that throws when the value is absent. -/
def getFromLookup (value : String) (lookup : List (String × Nat)) : Except String Nat :=
  match lookup.find? (fun p => p.1 = value) with
  | some p => .ok p.2
  | none => .error "Value not found in lookup"

/-- Modelled from the spec: `getKey` from `lib/utils` is outside these files;
it returns the first key of an object whose value equals the given value
(`undefined` when there is none). -/
def getKey (obj : List (String × Nat)) (value : Nat) : Option String :=
  (obj.find? (fun p => p.2 = value)).map (fun p => p.1)

/-- JavaScript template-literal interpolation of a possibly-undefined string:
`undefined` prints as the text "undefined". -/
def jsTemplateStr (o : Option String) : String :=
  match o with
  | some s => s
  | none => "undefined"

/-- A ZCL cluster attribute write issued by a toZigbee converter. -/
structure ClusterWrite where
  cluster : String
  attr : String
  value : Nat
  deriving DecidableEq, Repr

/-- `tzLocal.multi_zig_sw_switch_type.convertSet`: looks the value up in
`switchTypesList` (throwing when absent), writes the numeric code to
`genOnOffSwitchCfg.switchType`, and returns a state echo of key and value. -/
def multi_zig_sw_switch_type_convertSet (key : String) (value : String) :
    Except String (ClusterWrite × List (String × String)) :=
  match getFromLookup value switchTypesList with
  | .error e => .error e
  | .ok data =>
    .ok ({ cluster := "genOnOffSwitchCfg", attr := "switchType", value := data },
      [(key, value)])

/-- `fzLocal.tirouter.convert`: always reports `linkquality`; adds
`transmit_power` when attribute 4919 is present and truthy (a zero value is
falsy in JavaScript and is skipped). -/
def tirouter_convert (linkquality : ℚ) (data4919 : Option ℚ) : Option KV :=
  let result : KV := [("linkquality", .num linkquality)]
  let result :=
    match data4919 with
    | some v => if v = 0 then result else result.set "transmit_power" (.num v)
    | none => result
  some result

/-- `fzLocal.humidity2.convert`: divides `measuredValue` by 100, applies
calibration/precision rounding, and publishes only within the range 0..100
(the property is endpoint-suffixed for multi-endpoint models). -/
def humidity2_convert (env : ConvertEnv) (multiEndpoint : Bool) (epId : Nat)
    (measuredValue : ℚ) : Option KV :=
  let humidity := measuredValue / 100
  let humidity := env.calibrate "humidity" humidity
  if 0 ≤ humidity ∧ humidity ≤ 100 then
    let property := if multiEndpoint then env.epSuffix "humidity" epId else "humidity"
    some [(property, .num humidity)]
  else none

/-- `fzLocal.illuminance2.convert`: converts the measured value to lux via
`10 ** ((v - 1) / 10000)` (0 maps to 0), applies calibration, and always
publishes. -/
def illuminance2_convert (env : ConvertEnv) (multiEndpoint : Bool) (epId : Nat)
    (measuredValue : ℚ) : Option KV :=
  let illuminanceLux := if measuredValue = 0 then 0 else env.pow10 ((measuredValue - 1) / 10000)
  let illuminanceLux := env.calibrate "illuminance" illuminanceLux
  let property1 := if multiEndpoint then env.epSuffix "illuminance" epId else "illuminance"
  some [(property1, .num illuminanceLux)]

/-- `fzLocal.pressure2.convert`: uses `scaledValue / 10 ** scale / 100` when a
scaled value is present (`scale` read from the endpoint's stored cluster
attributes), otherwise the plain measured value; applies calibration and
always publishes. -/
def pressure2_convert (env : ConvertEnv) (multiEndpoint : Bool) (epId : Nat)
    (scaledValue : Option ℚ) (scaleAttr : ℚ) (measuredValue : ℚ) : Option KV :=
  let pressure : ℚ :=
    match scaledValue with
    | some sv => sv / env.pow10 scaleAttr / 100
    | none => measuredValue
  let pressure := env.calibrate "pressure" pressure
  let property := if multiEndpoint then env.epSuffix "pressure" epId else "pressure"
  some [(property, .num pressure)]

/-- `fzLocal.multi_zig_sw_battery.convert`: `voltage = batteryVoltage * 100`,
`battery = (voltage - 2200) / 8` capped above at 100. -/
def multi_zig_sw_battery_convert (batteryVoltage : ℚ) : Option KV :=
  let voltage := batteryVoltage * 100
  let battery := (voltage - 2200) / 8
  some [("battery", .num (if battery > 100 then 100 else battery)), ("voltage", .num voltage)]

/-- The `actionLookup` table of `fzLocal.multi_zig_sw_switch_buttons`. -/
def actionLookup : List (Nat × String) :=
  [(0, "release"), (1, "single"), (2, "double"), (3, "triple"), (4, "hold")]

/-- `fzLocal.multi_zig_sw_switch_buttons.convert`: resolves the button name
from the model's endpoint map and the action from `actionLookup`, and returns
`` `${button}_${action}` `` (either part prints as "undefined" when absent). -/
def multi_zig_sw_switch_buttons_convert (modelEndpoints : List (String × Nat))
    (msgEndpointID : Nat) (presentValue : Nat) : Option KV :=
  let button := getKey modelEndpoints msgEndpointID
  let action := (actionLookup.find? (fun p => p.1 = presentValue)).map (fun p => p.2)
  some [("action", .str (jsTemplateStr button ++ "_" ++ jsTemplateStr action))]

/-- `fzLocal.multi_zig_sw_switch_config.convert`: resolves the channel from
the model's endpoint map and reports `switch_type_<channel>` as the key of
`switchTypesList` whose value is the reported `switchType` (or `undefined`). -/
def multi_zig_sw_switch_config_convert (modelEndpoints : List (String × Nat))
    (msgEndpointID : Nat) (switchType : Nat) : Option KV :=
  let channel := getKey modelEndpoints msgEndpointID
  some [("switch_type_" ++ jsTemplateStr channel,
    match getKey switchTypesList switchType with
    | some s => .str s
    | none => .undefinedVal)]

/-- The two green-power message types handled by `fzLocal.schneider_powertag`. -/
inductive GPMsgType where
  | commandNotification
  | commandCommissioningNotification
  deriving DecidableEq, Repr

/-- A green-power message as consumed by `fzLocal.schneider_powertag`:
`attrs` is the attribute record of the embedded command frame. -/
structure GPMsg where
  type : GPMsgType
  commandID : Nat
  frameCounter : Nat
  options : Nat
  clusterID : Nat
  attrs : String → Option ℚ
  deviceIeee : String

/-- The module-level message-dedup store consulted by
`utils.hasAlreadyProcessedMessage`: dedup key to last processed frame
counter. -/
abbrev DedupState := List (String × Nat)

/-- Store update with JavaScript object semantics (overwrite in place or
append). -/
def dedupSet (st : DedupState) (key : String) (counter : Nat) : DedupState :=
  if st.any (fun p => p.1 = key) then st.map (fun p => if p.1 = key then (key, counter) else p)
  else st ++ [(key, counter)]

/-- Modelled from the spec: `utils.hasAlreadyProcessedMessage` from
`lib/utils` is outside these files.  Per its use here and C6's reading, a
message counts as already processed when the store holds its frame counter
under its dedup key; otherwise the counter is recorded for that key. -/
def hasAlreadyProcessedMessage (st : DedupState) (key : String) (counter : Nat) :
    Bool × DedupState :=
  match st.find? (fun p => p.1 = key) with
  | some p => if p.2 = counter then (true, st) else (false, dedupSet st key counter)
  | none => (false, dedupSet st key counter)

/-- The dedup key `` `${msg.device.ieeeAddr}_${commandID}` ``. -/
def dedupKey (msg : GPMsg) : String :=
  msg.deviceIeee ++ "_" ++ ⟨natToDec msg.commandID⟩

/-- An attribute of the embedded command frame as a JavaScript value
(`undefined` when absent). -/
def attrVal (attrs : String → Option ℚ) (k : String) : JsVal :=
  match attrs k with
  | some q => .num q
  | none => .undefinedVal

/-- The properties accumulated in `ret` by `fzLocal.schneider_powertag` for a
fresh command notification: the `commandID`/`clusterID` switch of the source
(command 0xa3 and unknown clusters contribute nothing). -/
def schneiderPayload (msg : GPMsg) : KV :=
  let commandID := msg.commandID
  let ret : KV := []
  if commandID = 0xa1 then
    let attr := msg.attrs
    let clusterID := msg.clusterID
    if clusterID = 2820 then
      -- haElectricalMeasurement
      let acCurrentDivisor := attrVal attr "acCurrentDivisor"
      let acVoltageDivisor := attrVal attr "acVoltageDivisor"
      let acFrequencyDivisor := attrVal attr "acFrequencyDivisor"
      let powerDivisor := attrVal attr "powerDivisor"
      let ret := if (attr "rmsVoltage").isSome then
        ret.set "voltage_phase_a" (jsDiv (attrVal attr "rmsVoltage") acVoltageDivisor) else ret
      let ret := if (attr "rmsVoltagePhB").isSome then
        ret.set "voltage_phase_b" (jsDiv (attrVal attr "rmsVoltagePhB") acVoltageDivisor) else ret
      let ret := if (attr "rmsVoltagePhC").isSome then
        ret.set "voltage_phase_c" (jsDiv (attrVal attr "rmsVoltagePhC") acVoltageDivisor) else ret
      let ret := if (attr "19200").isSome then
        ret.set "voltage_phase_ab" (jsDiv (attrVal attr "19200") acVoltageDivisor) else ret
      let ret := if (attr "19456").isSome then
        ret.set "voltage_phase_bc" (jsDiv (attrVal attr "19456") acVoltageDivisor) else ret
      let ret := if (attr "19712").isSome then
        ret.set "voltage_phase_ca" (jsDiv (attrVal attr "19712") acVoltageDivisor) else ret
      let ret := if (attr "rmsCurrent").isSome then
        ret.set "current_phase_a" (jsDiv (attrVal attr "rmsCurrent") acCurrentDivisor) else ret
      let ret := if (attr "rmsCurrentPhB").isSome then
        ret.set "current_phase_b" (jsDiv (attrVal attr "rmsCurrentPhB") acCurrentDivisor) else ret
      let ret := if (attr "rmsCurrentPhC").isSome then
        ret.set "current_phase_c" (jsDiv (attrVal attr "rmsCurrentPhC") acCurrentDivisor) else ret
      let ret := if (attr "totalActivePower").isSome then
        ret.set "power" (jsDiv (jsMul (attrVal attr "totalActivePower") (.num 1000)) powerDivisor)
        else ret
      let ret := if (attr "totalApparentPower").isSome then
        ret.set "power_apparent"
          (jsDiv (jsMul (attrVal attr "totalApparentPower") (.num 1000)) powerDivisor) else ret
      let ret := if (attr "acFrequency").isSome then
        ret.set "ac_frequency" (jsDiv (attrVal attr "acFrequency") acFrequencyDivisor) else ret
      let ret := if (attr "activePower").isSome then
        ret.set "power_phase_a" (jsDiv (jsMul (attrVal attr "activePower") (.num 1000)) powerDivisor)
        else ret
      let ret := if (attr "activePowerPhB").isSome then
        ret.set "power_phase_b"
          (jsDiv (jsMul (attrVal attr "activePowerPhB") (.num 1000)) powerDivisor) else ret
      let ret := if (attr "activePowerPhC").isSome then
        ret.set "power_phase_c"
          (jsDiv (jsMul (attrVal attr "activePowerPhC") (.num 1000)) powerDivisor) else ret
      ret
    else if clusterID = 1794 then
      -- seMetering
      let divisor := attrVal attr "divisor"
      let ret := if (attr "currentSummDelivered").isSome then
        ret.set "energy" (jsDiv (attrVal attr "currentSummDelivered") divisor) else ret
      let ret := if (attr "16652").isSome then
        ret.set "energy_phase_a" (jsDiv (attrVal attr "16652") divisor) else ret
      let ret := if (attr "16908").isSome then
        ret.set "energy_phase_b" (jsDiv (attrVal attr "16908") divisor) else ret
      let ret := if (attr "17164").isSome then
        ret.set "energy_phase_c" (jsDiv (attrVal attr "17164") divisor) else ret
      let ret := if (attr "powerFactor").isSome then
        ret.set "power_factor" (attrVal attr "powerFactor") else ret
      ret
    else ret
  else ret

/-- `fzLocal.schneider_powertag.convert`: skips anything that is not a
command notification, skips already-processed messages (consulting and
updating the dedup store), and otherwise returns the accumulated properties.
The Schneider-specific ACK sent when bit 11 of `msg.data.options` is set is a
network side effect that does not alter the returned properties and is not
modelled. -/
def schneider_powertag_convert (msg : GPMsg) (st : DedupState) :
    Option KV × DedupState :=
  if msg.type ≠ GPMsgType.commandNotification then (none, st)
  else
    let dup := hasAlreadyProcessedMessage st (dedupKey msg) msg.frameCounter
    if dup.1 then (none, dup.2)
    else (some (schneiderPayload msg), dup.2)

/-- JavaScript `String.prototype.toLowerCase` on the character data. -/
def jsToLowerCase (s : String) : String :=
  ⟨s.data.map Char.toLower⟩

/-- `tzLocal.fan_mode.convertSet` of the Schneider file: asserts the value is
a string (throwing otherwise), rewrites a value whose lowercase form is "on"
to "low", and delegates to the standard `tz.fan_mode.convertSet`.  Modelled
from the spec: `tz.fan_mode` (from `converters/toZigbee`) is outside these
files and is kept abstract as the delegate `tzFanModeSet`. -/
def fan_mode_convertSet {α : Type} (tzFanModeSet : String → α) (value : JsVal) :
    Except String α :=
  match value with
  | .str s => .ok (tzFanModeSet (if jsToLowerCase s = "on" then "low" else s))
  | _ => .error "assertString failed: value is not a string"

/-- The input of one invocation of a fromZigbee converter defined in these
files, one constructor per converter. -/
inductive FzInput where
  | tirouter (linkquality : ℚ) (data4919 : Option ℚ)
  | humidity2 (env : ConvertEnv) (multiEndpoint : Bool) (epId : Nat) (measuredValue : ℚ)
  | illuminance2 (env : ConvertEnv) (multiEndpoint : Bool) (epId : Nat) (measuredValue : ℚ)
  | pressure2 (env : ConvertEnv) (multiEndpoint : Bool) (epId : Nat)
      (scaledValue : Option ℚ) (scaleAttr : ℚ) (measuredValue : ℚ)
  | battery (batteryVoltage : ℚ)
  | buttons (modelEndpoints : List (String × Nat)) (msgEndpointID : Nat) (presentValue : Nat)
  | switchConfig (modelEndpoints : List (String × Nat)) (msgEndpointID : Nat) (switchType : Nat)
  | schneider (msg : GPMsg)

/-- One invocation of a fromZigbee converter against the shared module-level
dedup store: the result and the store afterwards.  Only
`fzLocal.schneider_powertag` touches the store. -/
def fzConvertRun : FzInput → DedupState → Option KV × DedupState
  | .tirouter l d, st => (tirouter_convert l d, st)
  | .humidity2 e m ep v, st => (humidity2_convert e m ep v, st)
  | .illuminance2 e m ep v, st => (illuminance2_convert e m ep v, st)
  | .pressure2 e m ep sv sc v, st => (pressure2_convert e m ep sv sc v, st)
  | .battery v, st => (multi_zig_sw_battery_convert v, st)
  | .buttons me ep pv, st => (multi_zig_sw_switch_buttons_convert me ep pv, st)
  | .switchConfig me ep sw, st => (multi_zig_sw_switch_config_convert me ep sw, st)
  | .schneider msg, st => schneider_powertag_convert msg st

/-- Identity environment used by witnesses. -/
def idEnv : ConvertEnv :=
  { calibrate := fun _ x => x, epSuffix := fun p _ => p, pow10 := fun _ => 1 }

/-- Concrete seMetering power-tag notification used by witnesses and by the
C3 counterexample. -/
def c3Msg : GPMsg :=
  { type := .commandNotification, commandID := 0xa1, frameCounter := 1, options := 0,
    clusterID := 1794,
    attrs := fun k =>
      if k = "currentSummDelivered" then some 5000
      else if k = "divisor" then some 1000 else none,
    deviceIeee := "0x00aa" }

/-- Concrete haElectricalMeasurement power-tag notification used by the C2
witness. -/
def c2PowerMsg : GPMsg :=
  { type := .commandNotification, commandID := 0xa1, frameCounter := 2, options := 0,
    clusterID := 2820,
    attrs := fun k =>
      if k = "totalActivePower" then some 2000
      else if k = "powerDivisor" then some 10 else none,
    deviceIeee := "0x00aa" }

/-- Concrete commissioning notification used by the C6 witness. -/
def c6CommMsg : GPMsg :=
  { type := .commandCommissioningNotification, commandID := 0xe0, frameCounter := 3,
    options := 0, clusterID := 0, attrs := fun _ => none, deviceIeee := "0x00aa" }

theorem KV.get_nil (k : String) : KV.get [] k = none := rfl

theorem KV.get_cons (p : String × JsVal) (t : KV) (k : String) :
    KV.get (p :: t) k = if p.1 = k then some p.2 else KV.get t k := by
  unfold KV.get
  rw [List.find?]
  by_cases hp : p.1 = k
  · simp [hp]
  · simp [hp]

theorem KV.set_cons_ne (p : String × JsVal) (t : KV) (k : String) (v : JsVal)
    (hp : p.1 ≠ k) : KV.set (p :: t) k v = p :: KV.set t k v := by
  unfold KV.set
  have hd : (decide (p.1 = k)) = false := decide_eq_false hp
  by_cases h : (t.any (fun q => q.1 = k)) = true
  · rw [if_pos (by simp [List.any_cons, h]), if_pos h, List.map_cons, if_neg hp]
  · have h' : (t.any (fun q => q.1 = k)) = false := by
      cases hb : (t.any (fun q => q.1 = k)) with
      | true => exact absurd hb h
      | false => rfl
    rw [if_neg (by simp [List.any_cons, h', hd]), if_neg h, List.cons_append]

theorem KV.set_cons_eq (p : String × JsVal) (t : KV) (k : String) (v : JsVal)
    (hp : p.1 = k) :
    KV.set (p :: t) k v = (k, v) :: t.map (fun q => if q.1 = k then (k, v) else q) := by
  unfold KV.set
  have h2 : ((p :: t).any (fun q => q.1 = k)) = true := by
    simp only [List.any_cons, Bool.or_eq_true]
    exact Or.inl (by simpa using hp)
  rw [if_pos h2, List.map_cons, if_pos hp]

theorem KV.get_map_overwrite (t : KV) (k k' : String) (v : JsVal) (h : k' ≠ k) :
    KV.get (t.map (fun q => if q.1 = k then (k, v) else q)) k' = KV.get t k' := by
  induction t with
  | nil => rfl
  | cons q t ih =>
    rw [List.map_cons, KV.get_cons, KV.get_cons]
    by_cases hq : q.1 = k
    · rw [if_pos hq]
      have h1 : ¬((k, v).1 = k') := fun hc => h (by simpa using hc.symm)
      have h2 : ¬(q.1 = k') := fun hc => h (by rw [← hc, hq])
      rw [if_neg h1, if_neg h2]
      exact ih
    · rw [if_neg hq]
      by_cases hq' : q.1 = k'
      · rw [if_pos hq', if_pos hq']
      · rw [if_neg hq', if_neg hq']
        exact ih

theorem KV.get_set_self (o : KV) (k : String) (v : JsVal) :
    (o.set k v).get k = some v := by
  induction o with
  | nil =>
    show KV.get (KV.set [] k v) k = some v
    unfold KV.set
    rw [if_neg (by simp), List.nil_append, KV.get_cons, if_pos rfl]
  | cons p t ih =>
    by_cases hp : p.1 = k
    · rw [KV.set_cons_eq p t k v hp, KV.get_cons]
      simp
    · rw [KV.set_cons_ne p t k v hp, KV.get_cons, if_neg hp]
      exact ih

theorem KV.get_set_ne (o : KV) (k k' : String) (v : JsVal) (h : k' ≠ k) :
    (o.set k v).get k' = o.get k' := by
  induction o with
  | nil =>
    show KV.get (KV.set [] k v) k' = KV.get [] k'
    unfold KV.set
    rw [if_neg (by simp), List.nil_append, KV.get_cons, if_neg (by simpa using fun hc => h hc.symm)]
  | cons p t ih =>
    by_cases hp : p.1 = k
    · rw [KV.set_cons_eq p t k v hp, KV.get_cons,
        if_neg (by simpa using fun hc => h hc.symm), KV.get_cons, hp,
        if_neg (fun hc => h hc.symm)]
      exact KV.get_map_overwrite t k k' v h
    · rw [KV.set_cons_ne p t k v hp, KV.get_cons, KV.get_cons]
      by_cases hq : p.1 = k'
      · simp [hq]
      · simp only [hq, if_false]
        exact ih

theorem decDigitVal_decDigitChar (d : Nat) (h : d < 10) :
    decDigitVal (decDigitChar d) = d := by
  interval_cases d <;> rfl

theorem decVal_append_digit (ds : List Char) (c : Char) :
    decVal (ds ++ [c]) = decVal ds * 10 + decDigitVal c := by
  unfold decVal
  rw [List.foldl_append]
  rfl

theorem decVal_natToDecAux (fuel n : Nat) (h : n < fuel) :
    decVal (natToDecAux fuel n) = n := by
  induction fuel generalizing n with
  | zero => omega
  | succ fuel ih =>
    rw [natToDecAux]
    by_cases h10 : n < 10
    · rw [if_pos h10]
      show 0 * 10 + decDigitVal (decDigitChar n) = n
      rw [decDigitVal_decDigitChar n h10]
      omega
    · have hdiv : n / 10 < n := Nat.div_lt_self (by omega) (by omega)
      rw [if_neg h10, decVal_append_digit, ih (n / 10) (by omega),
        decDigitVal_decDigitChar (n % 10) (Nat.mod_lt _ (by omega))]
      omega

theorem decVal_natToDec (n : Nat) : decVal (natToDec n) = n :=
  decVal_natToDecAux (n + 1) n (Nat.lt_succ_self n)

theorem natToDec_injective : Function.Injective natToDec := by
  intro a b h
  have := decVal_natToDec a
  rw [h, decVal_natToDec] at this
  exact this.symm

theorem epName_injective : Function.Injective epName := by
  intro a b h
  unfold epName at h
  have hd := congrArg String.data h
  simp only [String.data_append] at hd
  exact natToDec_injective (by simpa using hd)

theorem epName_ne_action (n : Nat) : epName n ≠ "action" := by
  intro h
  have hd := congrArg String.data h
  unfold epName at hd
  simp only [String.data_append] at hd
  simp [List.singleton_append, show ("action" : String).data = ['a', 'c', 't', 'i', 'o', 'n'] from rfl] at hd

theorem JsArrKV.length_setProp (a : JsArrKV) (k : String) (v : Nat) :
    (a.setProp k v).length = a.length := rfl

theorem JsArrKV.length_foldl_setProp (L : List Nat) (a : JsArrKV) :
    (L.foldl (fun acc epId => acc.setProp (epName epId) epId) a).length = a.length := by
  induction L generalizing a with
  | nil => rfl
  | cons m rest ih => rw [List.foldl_cons, ih, JsArrKV.length_setProp]

theorem JsArrKV.props_foldl_setProp (L : List Nat) (a : JsArrKV) (n : Nat) :
    (L.foldl (fun acc epId => acc.setProp (epName epId) epId) a).props (epName n) =
      if n ∈ L then some n else a.props (epName n) := by
  induction L generalizing a with
  | nil => simp
  | cons m rest ih =>
    rw [List.foldl_cons, ih]
    by_cases hr : n ∈ rest
    · rw [if_pos hr, if_pos (List.mem_cons_of_mem m hr)]
    · rw [if_neg hr]
      by_cases hm : n = m
      · subst hm
        rw [if_pos (List.mem_cons_self n rest)]
        show (if epName n = epName n then some n else a.props (epName n)) = some n
        rw [if_pos rfl]
      · have hne : epName n ≠ epName m := fun hc => hm (epName_injective hc)
        rw [if_neg (by simp [List.mem_cons, hm, hr])]
        show (if epName n = epName m then some m else a.props (epName n)) = a.props (epName n)
        rw [if_neg hne]

theorem config_foldl_eq (lines : List (List Char)) (a : JsArrKV) :
    lines.foldl
        (fun (acc : JsArrKV) epConfig =>
          match leadingHexMatch epConfig with
          | none => acc
          | some ds => acc.setProp (epName (parseHexDigits ds)) (parseHexDigits ds)) a =
      (lines.filterMap (fun l => (leadingHexMatch l).map parseHexDigits)).foldl
        (fun acc epId => acc.setProp (epName epId) epId) a := by
  induction lines generalizing a with
  | nil => rfl
  | cons l rest ih =>
    rw [List.foldl_cons, List.filterMap_cons]
    cases h : leadingHexMatch l with
    | none => simp only [h]; exact ih a
    | some ds => simp only [h, Option.map_some, List.foldl_cons]; exact ih _

theorem JsArrKV.props_setProp_self (a : JsArrKV) (k : String) (v : Nat) :
    (a.setProp k v).props k = some v := by
  show (if k = k then some v else a.props k) = some v
  rw [if_pos rfl]

theorem JsArrKV.props_setProp_ne (a : JsArrKV) (k k' : String) (v : Nat) (h : k' ≠ k) :
    (a.setProp k v).props k' = a.props k' := by
  show (if k' = k then some v else a.props k') = a.props k'
  rw [if_neg h]

theorem ptvoSwitchEndpoint_real_props (d : PtvoDevice String) (n : Nat) :
    (ptvoSwitchEndpoint (.real d)).props (epName n) =
      if ptvoGetMetaOption (DeviceRef.real d) "device_config" "" = "" then
        (if n ∈ (List.range 8).map (· + 1) then some n
         else if n ∈ d.endpoints then some n else none)
      else
        (if n ∈ configEpIds (ptvoGetMetaOption (DeviceRef.real d) "device_config" "") then some n
         else if n ∈ d.endpoints then some n else none) := by
  unfold ptvoSwitchEndpoint configEpIds
  simp only []
  rw [JsArrKV.props_setProp_ne _ _ _ _ (epName_ne_action n)]
  by_cases hcfg : ptvoGetMetaOption (DeviceRef.real d) "device_config" "" = ""
  · rw [if_pos hcfg, if_pos hcfg,
      if_pos (by rw [JsArrKV.length_foldl_setProp]; rfl),
      JsArrKV.props_foldl_setProp, JsArrKV.props_foldl_setProp]
    rfl
  · rw [if_neg hcfg, if_neg hcfg, config_foldl_eq,
      JsArrKV.props_foldl_setProp, JsArrKV.props_foldl_setProp]
    rfl

/-- C1: the `ptvo.switch` endpoint-derivation function returns a mapping with
an entry `l<ID> -> ID` for every endpoint of the device and `action -> 1`;
when the stored device-configuration string is non-empty, it also has
`l<epId> -> epId` for every config line whose leading characters match
`[0-9A-F]+`, with `epId` the hexadecimal parse of that match. -/
theorem claim1_ptvo_endpoint_mapping (device : DeviceRef String) :
    (ptvoSwitchEndpoint device).props "action" = some 1 ∧
    ∀ d : PtvoDevice String, device = .real d →
      (∀ epId ∈ d.endpoints, (ptvoSwitchEndpoint device).props (epName epId) = some epId) ∧
      (ptvoGetMetaOption device "device_config" "" ≠ "" →
        ∀ line ∈ splitLines (ptvoGetMetaOption device "device_config" "").data,
          ∀ ds, leadingHexMatch line = some ds →
            (ptvoSwitchEndpoint device).props (epName (parseHexDigits ds)) =
              some (parseHexDigits ds)) := by
  constructor
  · cases device with
    | dummy => exact JsArrKV.props_setProp_self _ _ _
    | real d => exact JsArrKV.props_setProp_self _ _ _
  · intro d hd
    subst hd
    constructor
    · intro epId hmem
      rw [ptvoSwitchEndpoint_real_props]
      by_cases hcfg : ptvoGetMetaOption (DeviceRef.real d) "device_config" "" = ""
      · rw [if_pos hcfg]
        by_cases h8 : epId ∈ (List.range 8).map (· + 1)
        · rw [if_pos h8]
        · rw [if_neg h8, if_pos hmem]
      · rw [if_neg hcfg]
        by_cases hc : epId ∈ configEpIds (ptvoGetMetaOption (DeviceRef.real d) "device_config" "")
        · rw [if_pos hc]
        · rw [if_neg hc, if_pos hmem]
    · intro hcfg line hline ds hds
      have hn : parseHexDigits ds ∈
          configEpIds (ptvoGetMetaOption (DeviceRef.real d) "device_config" "") := by
        unfold configEpIds
        exact List.mem_filterMap.mpr ⟨line, hline, by rw [hds]; rfl⟩
      rw [ptvoSwitchEndpoint_real_props, if_neg hcfg, if_pos hn]

theorem claim1_ptvo_endpoint_mapping_witness :
    (ptvoSwitchEndpoint (.real c1Device)).props "action" = some 1 ∧
    (ptvoSwitchEndpoint (.real c1Device)).props (epName 3) = some 3 ∧
    (ptvoSwitchEndpoint (.real c1Device)).props (epName 47) = some 47 := by
  obtain ⟨h1, h2⟩ := claim1_ptvo_endpoint_mapping (.real c1Device)
  obtain ⟨ha, hc⟩ := h2 c1Device rfl
  refine ⟨h1, ha 3 (by decide), ?_⟩
  have := hc (by decide) ("2F,x".data) (by decide) ("2F".data) (by decide)
  exact this

theorem KV.get_setIf_ne (o : KV) (c : Prop) [Decidable c] (k' k : String) (v : JsVal)
    (h : k ≠ k') : KV.get (if c then o.set k' v else o) k = o.get k := by
  by_cases hc : c
  · rw [if_pos hc]
    exact KV.get_set_ne o k' k v h
  · rw [if_neg hc]

/-- C10: `ptvoSetMetaOption` followed by `ptvoGetMetaOption` round-trips: on a
non-dummy device, getting a key just set returns the stored value for any
default, and getting a key that was never set returns the supplied default. -/
theorem claim10_meta_roundtrip {α : Type} (d : PtvoDevice α) (k : String) (v : α)
    (dflt : α) :
    ptvoGetMetaOption (.real (ptvoSetMetaOption d k v)) k dflt = v ∧
    (d.meta k = none → ptvoGetMetaOption (.real d) k dflt = dflt) := by
  refine ⟨?_, ?_⟩
  · simp [ptvoGetMetaOption, ptvoSetMetaOption]
  · intro h
    simp [ptvoGetMetaOption, h]

theorem claim10_meta_roundtrip_witness :
    ptvoGetMetaOption
        (.real (ptvoSetMetaOption (⟨[], fun _ => none⟩ : PtvoDevice Nat) "opt" 5)) "opt" 0 = 5 ∧
    ptvoGetMetaOption (.real (⟨[], fun _ => none⟩ : PtvoDevice Nat)) "opt" 0 = 0 := by
  obtain ⟨h1, h2⟩ := claim10_meta_roundtrip (⟨[], fun _ => none⟩ : PtvoDevice Nat) "opt" 5 0
  exact ⟨h1, h2 rfl⟩

/-- C7: `fzLocal.multi_zig_sw_battery` reports `voltage = batteryVoltage * 100`
and a battery value capped above at 100; for `batteryVoltage ≤ 30` the battery
value is exactly `(voltage - 2200) / 8`, with no lower cap. -/
theorem claim7_battery_cap (bv : ℚ) :
    ∃ b : ℚ, multi_zig_sw_battery_convert bv =
        some [("battery", .num b), ("voltage", .num (bv * 100))] ∧
      b ≤ 100 ∧ (bv ≤ 30 → b = (bv * 100 - 2200) / 8) := by
  refine ⟨if (bv * 100 - 2200) / 8 > 100 then 100 else (bv * 100 - 2200) / 8, rfl, ?_, ?_⟩
  · by_cases h : (bv * 100 - 2200) / 8 > 100
    · rw [if_pos h]
    · rw [if_neg h]
      exact le_of_not_lt h
  · intro hb
    have hle : (bv * 100 - 2200) / 8 ≤ 100 := by
      rw [div_le_iff₀ (by norm_num : (0 : ℚ) < 8)]
      linarith
    rw [if_neg (not_lt.mpr hle)]

theorem claim7_battery_cap_witness :
    multi_zig_sw_battery_convert 23 =
      some [("battery", .num ((23 * 100 - 2200) / 8)), ("voltage", .num (23 * 100))] := by
  obtain ⟨b, h1, h2, h3⟩ := claim7_battery_cap 23
  rw [h3 (by norm_num)] at h1
  exact h1

/-- C5: `tzLocal.multi_zig_sw_switch_type.convertSet` writes 0x00 for
"switch" and 0x02 for "multi-click" to `genOnOffSwitchCfg` and echoes key and
value; any other value throws. -/
theorem claim5_switch_type_set (key value : String) :
    (value = "switch" →
      multi_zig_sw_switch_type_convertSet key value =
        .ok ({ cluster := "genOnOffSwitchCfg", attr := "switchType", value := 0x00 },
          [(key, value)])) ∧
    (value = "multi-click" →
      multi_zig_sw_switch_type_convertSet key value =
        .ok ({ cluster := "genOnOffSwitchCfg", attr := "switchType", value := 0x02 },
          [(key, value)])) ∧
    (value ≠ "switch" → value ≠ "multi-click" →
      multi_zig_sw_switch_type_convertSet key value = .error "Value not found in lookup") := by
  refine ⟨?_, ?_, ?_⟩
  · intro h
    subst h
    rfl
  · intro h
    subst h
    rfl
  · intro h1 h2
    have e1 : (decide (("switch" : String) = value)) = false :=
      decide_eq_false (fun hc => h1 hc.symm)
    have e2 : (decide (("multi-click" : String) = value)) = false :=
      decide_eq_false (fun hc => h2 hc.symm)
    simp [multi_zig_sw_switch_type_convertSet, getFromLookup, switchTypesList,
      List.find?, e1, e2]

theorem claim5_switch_type_set_witness :
    multi_zig_sw_switch_type_convertSet "switch_type_1" "switch" =
      .ok ({ cluster := "genOnOffSwitchCfg", attr := "switchType", value := 0x00 },
        [("switch_type_1", "switch")]) ∧
    multi_zig_sw_switch_type_convertSet "switch_type_2" "multi-click" =
      .ok ({ cluster := "genOnOffSwitchCfg", attr := "switchType", value := 0x02 },
        [("switch_type_2", "multi-click")]) ∧
    multi_zig_sw_switch_type_convertSet "switch_type_1" "toggle" =
      .error "Value not found in lookup" := by
  obtain ⟨a1, -, -⟩ := claim5_switch_type_set "switch_type_1" "switch"
  obtain ⟨-, b2, -⟩ := claim5_switch_type_set "switch_type_2" "multi-click"
  obtain ⟨-, -, c3⟩ := claim5_switch_type_set "switch_type_1" "toggle"
  exact ⟨a1 rfl, b2 rfl, c3 (by decide) (by decide)⟩

/-- C4: `fzLocal.humidity2` publishes the computed humidity only when it lies
in the closed range 0..100, and returns nothing (skipping the attribute) when
it lies outside. -/
theorem claim4_humidity_range (env : ConvertEnv) (multiEndpoint : Bool) (epId : Nat)
    (measuredValue : ℚ) :
    (¬(0 ≤ env.calibrate "humidity" (measuredValue / 100) ∧
        env.calibrate "humidity" (measuredValue / 100) ≤ 100) →
      humidity2_convert env multiEndpoint epId measuredValue = none) ∧
    (0 ≤ env.calibrate "humidity" (measuredValue / 100) ∧
        env.calibrate "humidity" (measuredValue / 100) ≤ 100 →
      humidity2_convert env multiEndpoint epId measuredValue =
        some [(if multiEndpoint then env.epSuffix "humidity" epId else "humidity",
          .num (env.calibrate "humidity" (measuredValue / 100)))]) := by
  constructor
  · intro h
    simp only [humidity2_convert]
    rw [if_neg h]
  · intro h
    simp only [humidity2_convert]
    rw [if_pos h]

theorem claim4_humidity_range_witness :
    humidity2_convert idEnv false 1 5000 = some [("humidity", .num 50)] ∧
    humidity2_convert idEnv false 1 20000 = none := by
  obtain ⟨-, hpos⟩ := claim4_humidity_range idEnv false 1 5000
  obtain ⟨hneg, -⟩ := claim4_humidity_range idEnv false 1 20000
  refine ⟨(hpos (by norm_num [idEnv])).trans ?_, hneg (by norm_num [idEnv])⟩
  norm_num [idEnv]

/-- C8: `tzLocal.fan_mode.convertSet` of the Schneider file delegates to
`tz.fan_mode.convertSet`, mapping a string whose lowercase form is "on" to
"low", passing any other string through unchanged, and throwing on a
non-string value. -/
theorem claim8_fan_mode_refines {α : Type} (f : String → α) :
    (∀ s : String, jsToLowerCase s = "on" → fan_mode_convertSet f (.str s) = .ok (f "low")) ∧
    (∀ s : String, jsToLowerCase s ≠ "on" → fan_mode_convertSet f (.str s) = .ok (f s)) ∧
    (∀ v : JsVal, (∀ s, v ≠ .str s) →
      fan_mode_convertSet f v = .error "assertString failed: value is not a string") := by
  refine ⟨?_, ?_, ?_⟩
  · intro s h
    simp only [fan_mode_convertSet]
    rw [if_pos h]
  · intro s h
    simp only [fan_mode_convertSet]
    rw [if_neg h]
  · intro v hv
    cases v with
    | str s => exact absurd rfl (hv s)
    | num q => rfl
    | nan => rfl
    | undefinedVal => rfl

theorem claim8_fan_mode_refines_witness :
    fan_mode_convertSet (fun s => s) (.str "ON") = .ok "low" ∧
    fan_mode_convertSet (fun s => s) (.str "auto") = .ok "auto" ∧
    fan_mode_convertSet (fun s => s) (.num 3) =
      .error "assertString failed: value is not a string" := by
  obtain ⟨h1, h2, h3⟩ := claim8_fan_mode_refines (fun s : String => s)
  exact ⟨h1 "ON" (by decide), h2 "auto" (by decide), h3 (.num 3) (fun s h => nomatch h)⟩

/-- C9: for a `presentValue` outside 0..4, `fzLocal.multi_zig_sw_switch_buttons`
does not skip the message but returns an action whose text is the button name
followed by "_undefined". -/
theorem claim9_buttons_undefined_action (modelEndpoints : List (String × Nat))
    (epId pv : Nat) (b : String) (hb : getKey modelEndpoints epId = some b)
    (hpv : pv ∉ ([0, 1, 2, 3, 4] : List Nat)) :
    multi_zig_sw_switch_buttons_convert modelEndpoints epId pv =
      some [("action", .str (b ++ "_undefined"))] := by
  have h5 : 5 ≤ pv := by
    by_contra hlt
    push_neg at hlt
    interval_cases pv <;> simp_all
  have hf : actionLookup.find? (fun p => p.1 = pv) = none := by
    apply List.find?_eq_none.mpr
    intro p hp
    simp only [actionLookup, List.mem_cons, List.not_mem_nil, or_false] at hp
    rcases hp with rfl | rfl | rfl | rfl | rfl <;>
      simp only [decide_eq_true_eq] <;> omega
  simp only [multi_zig_sw_switch_buttons_convert]
  rw [hb, hf]
  simp only [Option.map_none', jsTemplateStr, String.append_assoc]
  rfl

theorem claim9_buttons_undefined_action_witness :
    multi_zig_sw_switch_buttons_convert [("button_1", 2), ("button_2", 3)] 2 7 =
      some [("action", .str "button_1_undefined")] := by
  have h := claim9_buttons_undefined_action [("button_1", 2), ("button_2", 3)] 2 7 "button_1"
    (by decide) (by decide)
  exact h

theorem attrVal_eq_num (attrs : String → Option ℚ) (k : String) (q : ℚ)
    (h : attrs k = some q) : attrVal attrs k = .num q := by
  unfold attrVal
  rw [h]

theorem schneider_convert_fresh (msg : GPMsg) (st : DedupState)
    (ht : msg.type = GPMsgType.commandNotification)
    (hdup : (hasAlreadyProcessedMessage st (dedupKey msg) msg.frameCounter).1 = false) :
    (schneider_powertag_convert msg st).1 = some (schneiderPayload msg) := by
  simp only [schneider_powertag_convert]
  rw [if_neg (fun hne => hne ht)]
  simp [hdup]

theorem schneiderPayload_energy (msg : GPMsg) (v : ℚ)
    (hcmd : msg.commandID = 0xa1) (hclu : msg.clusterID = 1794)
    (hatt : msg.attrs "currentSummDelivered" = some v) :
    (schneiderPayload msg).get "energy" =
      some (jsDiv (.num v) (attrVal msg.attrs "divisor")) := by
  simp only [schneiderPayload]
  rw [if_pos hcmd,
    if_neg (fun hc => by rw [hclu] at hc; exact absurd hc (by decide)),
    if_pos hclu]
  rw [KV.get_setIf_ne _ _ _ _ _ (by decide), KV.get_setIf_ne _ _ _ _ _ (by decide),
    KV.get_setIf_ne _ _ _ _ _ (by decide), KV.get_setIf_ne _ _ _ _ _ (by decide)]
  rw [hatt, attrVal_eq_num msg.attrs "currentSummDelivered" v hatt]
  rw [if_pos (by rfl : (some v).isSome = true)]
  exact KV.get_set_self [] "energy" _

theorem schneiderPayload_power (msg : GPMsg) (v : ℚ)
    (hcmd : msg.commandID = 0xa1) (hclu : msg.clusterID = 2820)
    (hatt : msg.attrs "totalActivePower" = some v) :
    (schneiderPayload msg).get "power" =
      some (jsDiv (jsMul (.num v) (.num 1000)) (attrVal msg.attrs "powerDivisor")) := by
  simp only [schneiderPayload]
  rw [if_pos hcmd, if_pos hclu]
  rw [KV.get_setIf_ne _ _ _ _ _ (by decide), KV.get_setIf_ne _ _ _ _ _ (by decide),
    KV.get_setIf_ne _ _ _ _ _ (by decide), KV.get_setIf_ne _ _ _ _ _ (by decide),
    KV.get_setIf_ne _ _ _ _ _ (by decide)]
  rw [hatt, attrVal_eq_num msg.attrs "totalActivePower" v hatt]
  rw [if_pos (by rfl : (some v).isSome = true)]
  exact KV.get_set_self _ "power" _

/-- C2: a fresh commandNotification with commandID 0xa1 yields
`energy = currentSummDelivered / divisor` for a seMetering (1794) frame and
`power = totalActivePower * 1000 / powerDivisor` for a haElectricalMeasurement
(2820) frame, with the divisors taken from the same frame's attributes. -/
theorem claim2_powertag_scaling (msg : GPMsg) (st : DedupState)
    (ht : msg.type = GPMsgType.commandNotification)
    (hdup : (hasAlreadyProcessedMessage st (dedupKey msg) msg.frameCounter).1 = false)
    (hcmd : msg.commandID = 0xa1) :
    (∀ v : ℚ, msg.clusterID = 1794 → msg.attrs "currentSummDelivered" = some v →
      ∃ ret : KV, (schneider_powertag_convert msg st).1 = some ret ∧
        ret.get "energy" = some (jsDiv (.num v) (attrVal msg.attrs "divisor")) ∧
        ∀ d : ℚ, msg.attrs "divisor" = some d → d ≠ 0 →
          ret.get "energy" = some (.num (v / d))) ∧
    (∀ v : ℚ, msg.clusterID = 2820 → msg.attrs "totalActivePower" = some v →
      ∃ ret : KV, (schneider_powertag_convert msg st).1 = some ret ∧
        ret.get "power" =
          some (jsDiv (jsMul (.num v) (.num 1000)) (attrVal msg.attrs "powerDivisor")) ∧
        ∀ d : ℚ, msg.attrs "powerDivisor" = some d → d ≠ 0 →
          ret.get "power" = some (.num (v * 1000 / d))) := by
  have hconv := schneider_convert_fresh msg st ht hdup
  constructor
  · intro v hclu hatt
    refine ⟨schneiderPayload msg, hconv, schneiderPayload_energy msg v hcmd hclu hatt, ?_⟩
    intro d hdiv hd0
    rw [schneiderPayload_energy msg v hcmd hclu hatt,
      attrVal_eq_num msg.attrs "divisor" d hdiv]
    simp only [jsDiv]
    rw [if_neg hd0]
  · intro v hclu hatt
    refine ⟨schneiderPayload msg, hconv, schneiderPayload_power msg v hcmd hclu hatt, ?_⟩
    intro d hdiv hd0
    rw [schneiderPayload_power msg v hcmd hclu hatt,
      attrVal_eq_num msg.attrs "powerDivisor" d hdiv]
    simp only [jsMul, jsDiv]
    rw [if_neg hd0]

theorem claim2_powertag_scaling_witness :
    ((schneider_powertag_convert c3Msg []).1.map (fun r => r.get "energy")) =
      some (some (.num 5)) ∧
    ((schneider_powertag_convert c2PowerMsg []).1.map (fun r => r.get "power")) =
      some (some (.num 200000)) := by
  constructor
  · obtain ⟨hm, -⟩ := claim2_powertag_scaling c3Msg [] rfl (by decide) rfl
    obtain ⟨ret, hr, -, hd⟩ := hm 5000 rfl rfl
    rw [hr]
    show some (ret.get "energy") = some (some (.num 5))
    rw [hd 1000 rfl (by norm_num)]
    norm_num
  · obtain ⟨-, hp⟩ := claim2_powertag_scaling c2PowerMsg [] rfl (by decide) rfl
    obtain ⟨ret, hr, -, hd⟩ := hp 2000 rfl rfl
    rw [hr]
    show some (ret.get "power") = some (some (.num 200000))
    rw [hd 10 rfl (by norm_num)]
    norm_num

/-- C6: `fzLocal.schneider_powertag` returns no properties for a
commandCommissioningNotification, and for a commandNotification whose frame
counter and command the dedup store has already recorded for this device. -/
theorem claim6_schneider_skips (msg : GPMsg) (st : DedupState) :
    (msg.type = GPMsgType.commandCommissioningNotification →
      (schneider_powertag_convert msg st).1 = none) ∧
    (msg.type = GPMsgType.commandNotification →
      (hasAlreadyProcessedMessage st (dedupKey msg) msg.frameCounter).1 = true →
      (schneider_powertag_convert msg st).1 = none) := by
  constructor
  · intro h
    simp only [schneider_powertag_convert]
    rw [if_pos (by rw [h]; exact fun hc => nomatch hc)]
  · intro ht hdup
    simp only [schneider_powertag_convert]
    rw [if_neg (fun hne => hne ht)]
    simp [hdup]

theorem claim6_schneider_skips_witness :
    (schneider_powertag_convert c6CommMsg []).1 = none ∧
    (schneider_powertag_convert c3Msg [(dedupKey c3Msg, 1)]).1 = none := by
  obtain ⟨h1, -⟩ := claim6_schneider_skips c6CommMsg []
  obtain ⟨-, h2⟩ := claim6_schneider_skips c3Msg [(dedupKey c3Msg, 1)]
  exact ⟨h1 rfl, h2 rfl (by decide)⟩

/-- C3 counterexample: running `fzLocal.schneider_powertag` twice on the very
same message (identical model, message, options and meta) gives different
results, because the first run records the frame counter in the module-level
dedup store and the second run is skipped: the output is not a function of
the invocation inputs alone. -/
theorem claim3_counterexample :
    (fzConvertRun (.schneider c3Msg) []).1 ≠
      (fzConvertRun (.schneider c3Msg) ((fzConvertRun (.schneider c3Msg) []).2)).1 := by
  decide

/-- C3 (amended): every fromZigbee converter in these files other than
`fzLocal.schneider_powertag` is stateless: its result is determined by its
invocation inputs and it leaves the shared dedup store untouched.
`fzLocal.schneider_powertag` depends on the retained store only through the
duplicate verdict for the message's dedup key and frame counter: two
invocations on identical inputs whose verdicts agree produce the same
result. -/
theorem claim3_amended_statelessness :
    (∀ (i : FzInput) (st st' : DedupState),
      (∀ msg, i ≠ FzInput.schneider msg) →
      (fzConvertRun i st).1 = (fzConvertRun i st').1 ∧ (fzConvertRun i st).2 = st) ∧
    (∀ (msg : GPMsg) (st st' : DedupState),
      (hasAlreadyProcessedMessage st (dedupKey msg) msg.frameCounter).1 =
        (hasAlreadyProcessedMessage st' (dedupKey msg) msg.frameCounter).1 →
      (fzConvertRun (FzInput.schneider msg) st).1 =
        (fzConvertRun (FzInput.schneider msg) st').1) := by
  constructor
  · intro i st st' hns
    cases i with
    | tirouter l d => exact ⟨rfl, rfl⟩
    | humidity2 e m ep v => exact ⟨rfl, rfl⟩
    | illuminance2 e m ep v => exact ⟨rfl, rfl⟩
    | pressure2 e m ep sv sc v => exact ⟨rfl, rfl⟩
    | battery v => exact ⟨rfl, rfl⟩
    | buttons me ep pv => exact ⟨rfl, rfl⟩
    | switchConfig me ep sw => exact ⟨rfl, rfl⟩
    | schneider msg => exact absurd rfl (hns msg)
  · intro msg st st' hv
    simp only [fzConvertRun, schneider_powertag_convert]
    by_cases ht : msg.type ≠ GPMsgType.commandNotification
    · rw [if_pos ht, if_pos ht]
    · rw [if_neg ht, if_neg ht]
      by_cases hd : (hasAlreadyProcessedMessage st (dedupKey msg) msg.frameCounter).1 = true
      · simp [hd, hv ▸ hd]
      · have hd' :
            ¬((hasAlreadyProcessedMessage st' (dedupKey msg) msg.frameCounter).1 = true) :=
          fun hc => hd (by rw [hv]; exact hc)
        simp [eq_false_intro hd, eq_false_intro hd']

theorem claim3_amended_statelessness_witness :
    (fzConvertRun (.battery 23) []).1 = (fzConvertRun (.battery 23) [("x", 5)]).1 ∧
    (fzConvertRun (.schneider c3Msg) []).1 =
      (fzConvertRun (.schneider c3Msg) [("other", 9)]).1 := by
  refine ⟨?_, ?_⟩
  · exact (claim3_amended_statelessness.1 (.battery 23) [] [("x", 5)]
      (fun msg h => nomatch h)).1
  · exact claim3_amended_statelessness.2 c3Msg [] [("other", 9)] (by decide)

end ZhcSpec
